import Mathlib

/-!
Shallow embedding of `src/mosaicify.js` (Photomosaic).

The JavaScript module `Mosaicify` converts an image into a mosaic: it clips
the image so it divides evenly into tiles, computes each tile's average
color as a 6-character lowercase hex string, resolves a colored SVG glyph
per tile (through a localStorage cache, else an HTTP fetch), and renders
the mosaic row by row onto a canvas, rows chained serially via promises.

The module reads two free global constants `TILE_WIDTH` and `TILE_HEIGHT`;
every definition below takes them as explicit `Nat` parameters named
`TW`/`TH`.  Pixel channels are 8-bit values modelled as `Nat`.  The
asynchronous parts (fetch, localStorage, image decoding) are modelled by an
explicit environment `Env` and a promise-outcome type `POutcome` with a
`pending` alternative (a promise that never settles), and every effectful
function threads the localStorage state and counts network requests.
-/

/-- One RGBA pixel, 8-bit channels modelled as `Nat`. -/
structure RGBA where
  r : Nat
  g : Nat
  b : Nat
  a : Nat

/-- Source image: dimensions plus a pixel function (row-major conceptually;
`pixel x y` is the pixel at column `x`, row `y`). -/
structure ImageData where
  width : Nat
  height : Nat
  pixel : Nat → Nat → RGBA

/-- Result of `clipImage` (`{width, height, offsetX, offsetY}`). -/
structure ClipResult where
  width : Nat
  height : Nat
  offsetX : Nat
  offsetY : Nat
deriving DecidableEq, Repr

/-- `const pixelsPerTile = TILE_WIDTH*TILE_HEIGHT` (mosaicify.js line 37). -/
def pixelsPerTile (TW TH : Nat) : Nat := TW * TH

/-- `function range(num){ return [...Array(num).keys()] }` (lines 79-81). -/
def range (num : Nat) : List Nat := List.range num

/-- `clipImage` (lines 124-131): clipped width/height are the source
dimensions minus their remainder mod the tile size, offsets are half the
remainder, floored (JS `%` and `/` associate left, so
`img.width%TILE_WIDTH/2` is `(img.width % TILE_WIDTH) / 2`). -/
def clipImage (TW TH : Nat) (img : ImageData) : ClipResult :=
  { width := img.width - img.width % TW
    height := img.height - img.height % TH
    offsetX := img.width % TW / 2
    offsetY := img.height % TH / 2 }

/-- `totalColor` (lines 178-184): reducer over the flat RGBA data array;
`index % 4` selects the channel, the alpha channel (`index % 4 === 3`)
is skipped. -/
def totalColor (acc : Nat × Nat × Nat) (colorValue : Nat) (index : Nat) :
    Nat × Nat × Nat :=
  if index % 4 = 3 then acc
  else if index % 4 = 0 then (acc.1 + colorValue, acc.2.1, acc.2.2)
  else if index % 4 = 1 then (acc.1, acc.2.1 + colorValue, acc.2.2)
  else (acc.1, acc.2.1, acc.2.2 + colorValue)

/-- `average` (lines 191-193): `Math.floor(total/pixelsPerTile)`; on
naturals JS floor division is `Nat` division. -/
def average (TW TH : Nat) (total : Nat) : Nat := total / pixelsPerTile TW TH

/-- `toHex` (lines 200-204): JS `Math.floor(dec).toString(16)` (lowercase
hex digits, modelled by `Nat.toDigits 16`), left-padded with `'0'` when a
single digit. -/
def toHex (dec : Nat) : String :=
  let hex := String.mk (Nat.toDigits 16 dec)
  if hex.length = 1 then "0" ++ hex else hex

/-- The pixels of the rectangle `[sx, sx+w) × [sy, sy+h)` in row-major
order (the pixel block handed back by `ctx.getImageData`). -/
def pixList (px : Nat → Nat → RGBA) (sx sy w h : Nat) : List RGBA :=
  List.flatten ((List.range h).map fun j =>
    (List.range w).map fun i => px (sx + i) (sy + j))

/-- Flatten pixels into the `.data` channel array: `[r, g, b, a, r, g, …]`. -/
def flattenRGBA (ps : List RGBA) : List Nat :=
  List.flatten (ps.map fun p => [p.r, p.g, p.b, p.a])

/-- `ctx.getImageData(sx, sy, w, h).data`: the flat RGBA array of the
`w × h` block at `(sx, sy)`. -/
def getImageData (px : Nat → Nat → RGBA) (sx sy w h : Nat) : List Nat :=
  flattenRGBA (pixList px sx sy w h)

/-- The canvas contents after `generateMosaic` lines 96-100: the canvas is
resized to the clipped dimensions and the clipped source rectangle is
drawn at the origin, so canvas pixel `(i, j)` is source pixel
`(offsetX + i, offsetY + j)` in bounds and transparent black outside
(`getImageData` pads out-of-canvas reads with zeros). -/
def canvasPixel (TW TH : Nat) (img : ImageData) : Nat → Nat → RGBA :=
  fun i j =>
    let c := clipImage TW TH img
    if i < c.width ∧ j < c.height then
      img.pixel (c.offsetX + i) (c.offsetY + j)
    else ⟨0, 0, 0, 0⟩

/-- One cell of the mosaic grid (lines 105-109):
`ctx.getImageData(TILE_WIDTH*x, TILE_HEIGHT*y, TILE_WIDTH, TILE_HEIGHT).data`
reduced by `totalColor` from `[0,0,0]` (JS `reduce` feeds the flat array
index), each channel averaged then hex-encoded, joined. -/
def tileColor (TW TH : Nat) (px : Nat → Nat → RGBA) (x y : Nat) : String :=
  let tileData := getImageData px (TW * x) (TH * y) TW TH
  let t := tileData.enum.foldl (fun acc p => totalColor acc p.2 p.1) (0, 0, 0)
  String.join ([t.1, t.2.1, t.2.2].map (fun c => toHex (average TW TH c)))

/-- `mosaicArray` (lines 102-111): `xTotal = width/tileWidth`,
`yTotal = height/tileHeight` use the *arguments*, while the pixel block
reads use the module constants `TILE_WIDTH`/`TILE_HEIGHT` (`TW`/`TH`). -/
def mosaicArray (TW TH : Nat) (img : ImageData) (tileWidth tileHeight : Nat) :
    List (List String) :=
  let c := clipImage TW TH img
  let xTotal := c.width / tileWidth
  let yTotal := c.height / tileHeight
  (range yTotal).map fun y =>
    (range xTotal).map fun x => tileColor TW TH (canvasPixel TW TH img) x y

/-!  Specification-side definitions (from the spec's words, §4.2), used to
state the refinement claims about tile averaging. -/

/-- Modelled from the spec: one lowercase hex digit (`0-9`, `a-f`). -/
def hexDigitChar (n : Nat) : Char :=
  if n < 10 then Char.ofNat (48 + n) else Char.ofNat (87 + n)

/-- Modelled from the spec: a 2-digit zero-padded lowercase hex string
(`0→"00"`, `255→"ff"`, `16→"10"`). -/
def hex2 (n : Nat) : String :=
  String.mk [hexDigitChar (n / 16), hexDigitChar (n % 16)]

/-- Modelled from the spec: per-channel sum over all pixels of the block
`[sx, sx+w) × [sy, sy+h)` (alpha excluded by choice of `f`). -/
def sumChannel (f : RGBA → Nat) (px : Nat → Nat → RGBA) (sx sy w h : Nat) :
    Nat :=
  ((List.range h).map fun j =>
    ((List.range w).map fun i => f (px (sx + i) (sy + j))).sum).sum

/-- Modelled from the spec (§4.2): per-channel sums over the `W×H` block,
each floor-divided by the pixel count `W·H`, serialized as 2-digit hex,
concatenated `R‖G‖B`. -/
def specTileColor (TW TH : Nat) (px : Nat → Nat → RGBA) (x y : Nat) : String :=
  hex2 (sumChannel RGBA.r px (TW * x) (TH * y) TW TH / (TW * TH)) ++
  hex2 (sumChannel RGBA.g px (TW * x) (TH * y) TW TH / (TW * TH)) ++
  hex2 (sumChannel RGBA.b px (TW * x) (TH * y) TW TH / (TW * TH))

/-!  Asynchronous model: promises, the fetch/decode environment, and the
localStorage key-value store. -/

/-- The one rejection kind the code can produce: a failed
`fetch`/`response.text()` (network error).  `setItem` failures are caught
locally and decode failures never settle (see `loadSVGtoIMG`). -/
inductive Err where
  | networkErr : Err
deriving DecidableEq, Repr

/-- Settlement state of a promise: resolved with a value, rejected with an
error, or pending forever (never settles). -/
inductive POutcome (α : Type) where
  | resolved : α → POutcome α
  | rejected : Err → POutcome α
  | pending : POutcome α
deriving DecidableEq, Repr

/-- `isRejected o = true` iff the promise outcome is a rejection. -/
def isRejected {α : Type} : POutcome α → Bool
  | .rejected _ => true
  | _ => false

/-- `isResolved o = true` iff the promise outcome is a resolution. -/
def isResolved {α : Type} : POutcome α → Bool
  | .resolved _ => true
  | _ => false

/-- A loaded glyph image; it carries the SVG serialization it was decoded
from. -/
structure Glyph where
  svg : String
deriving DecidableEq, Repr

/-- localStorage modelled as an association list (newest binding first). -/
def Store : Type := List (String × String)

instance : DecidableEq Store := by
  unfold Store
  infer_instance

/-- The external world: the glyph service's response body per color (`none`
is a network failure), whether an SVG string decodes into an image (fires
`onload`), and whether a `localStorage.setItem` call throws (capacity). -/
structure Env where
  fetchResult : String → Option String
  decodeOk : String → Bool
  setFails : String → String → Store → Bool

/-- `localStorage.getItem`. -/
def localStorageGetItem (s : Store) (key : String) : Option String :=
  (s.find? (fun kv => kv.1 == key)).map (fun kv => kv.2)

/-- `localStorage.setItem` (the success case). -/
def localStorageSetItem (s : Store) (key v : String) : Store :=
  (key, v) :: s.filter (fun kv => kv.1 != key)

/-- JS truthiness of `localStorage.getItem`'s result: `null` and the empty
string are falsy, every other string is truthy. -/
def truthy : Option String → Bool
  | some sv => sv ≠ ""
  | none => false

/-- `key.indexOf('mosaic-') === 0`. -/
def startsWithMosaic (key : String) : Bool := key.take 7 == "mosaic-"

/-- `clearCachedSvgs` (lines 65-72): removes every localStorage key that
starts with `'mosaic-'`. -/
def clearCachedSvgs (s : Store) : Store :=
  s.filter (fun kv => !(startsWithMosaic kv.1))

/-- `loadSVGtoIMG` (lines 211-222): builds an `Image` from the SVG blob and
resolves in `img.onload`.  No `onerror` handler is installed and the
executor's `reject` is never called, so when decoding fails the promise
never settles: the outcome is `pending`, not `rejected`. -/
def loadSVGtoIMG (env : Env) (svg : String) : POutcome Glyph :=
  if env.decodeOk svg then .resolved ⟨svg⟩ else .pending

/-- The cache key `` `mosaic-${color}-${TILE_WIDTH}-${TILE_HEIGHT}` ``. -/
def storageKey (TW TH : Nat) (color : String) : String :=
  "mosaic-" ++ color ++ "-" ++ toString TW ++ "-" ++ toString TH

/-- Result of one `requestSVG` call: the promise outcome, the localStorage
state afterwards, and how many network requests were issued. -/
structure ReqResult where
  outcome : POutcome Glyph
  store : Store
  netRequests : Nat

/-- `requestSVG` (lines 44-59): on a truthy cached blob, decode it (no
network request).  Otherwise fetch the color; on network failure the
promise rejects; on success try `setItem`, and if it throws clear the SVG
cache instead (the store failure is swallowed); either way decode the
freshly fetched blob. -/
def requestSVG (TW TH : Nat) (env : Env) (s : Store) (color : String) :
    ReqResult :=
  let key := storageKey TW TH color
  let stored := localStorageGetItem s key
  if truthy stored then
    ⟨loadSVGtoIMG env (stored.getD ""), s, 0⟩
  else
    match env.fetchResult color with
    | none => ⟨.rejected .networkErr, s, 1⟩
    | some svg =>
      if env.setFails key svg s then
        ⟨loadSVGtoIMG env svg, clearCachedSvgs s, 1⟩
      else
        ⟨loadSVGtoIMG env svg, localStorageSetItem s key svg, 1⟩

/-- Outcomes, store and request count of a whole row's fan-out
(`tileRow.map(color => requestSVG(color))`): every request runs, the
store threads through in column order. -/
structure RowReqs where
  outcomes : List (POutcome Glyph)
  store : Store
  netRequests : Nat

/-- The fan-out of `renderRow` line 156: one `requestSVG` per color. -/
def requestRow (TW TH : Nat) (env : Env) : Store → List String → RowReqs
  | s, [] => ⟨[], s, 0⟩
  | s, color :: rest =>
    let r := requestSVG TW TH env s color
    let rr := requestRow TW TH env r.store rest
    ⟨r.outcome :: rr.outcomes, rr.store, r.netRequests + rr.netRequests⟩

/-- `Promise.all`: resolves with all values when every promise resolves,
rejects as soon as any rejects, and otherwise stays pending. -/
def collectOutcomes : List (POutcome Glyph) → POutcome (List Glyph)
  | [] => .resolved []
  | o :: rest =>
    match o with
    | .rejected e => .rejected e
    | .pending =>
      match collectOutcomes rest with
      | .rejected e => .rejected e
      | _ => .pending
    | .resolved g =>
      match collectOutcomes rest with
      | .resolved gs => .resolved (g :: gs)
      | .rejected e => .rejected e
      | .pending => .pending

/-- A canvas mutation performed by `renderRow` (lines 160-164). -/
inductive CanvasEvent where
  | clearRect : Nat → Nat → Nat → Nat → CanvasEvent
  | drawImage : String → Nat → Nat → CanvasEvent
deriving DecidableEq, Repr

/-- The y-coordinate at which a canvas event acts. -/
def eventY : CanvasEvent → Nat
  | .clearRect _ y _ _ => y
  | .drawImage _ _ y => y

/-- The draw phase of a successful row (lines 159-165): per column in
ascending order, `clearRect` then `drawImage`, both at
`(colNum*TILE_WIDTH, rowNum*TILE_HEIGHT)`. -/
def rowBlock (TW TH rowNum : Nat) (svgs : List Glyph) : List CanvasEvent :=
  List.flatten (svgs.enum.map fun p =>
    [CanvasEvent.clearRect (p.1 * TW) (rowNum * TH) TW TH,
     CanvasEvent.drawImage p.2.svg (p.1 * TW) (rowNum * TH)])

/-- Result of one `renderRow` call. -/
structure RowResult where
  outcome : POutcome Unit
  store : Store
  netRequests : Nat
  events : List CanvasEvent

/-- `renderRow` (lines 155-167): fan out all requests, `Promise.all`, and
only on full success mutate the canvas (the whole row's block); on a
rejected or pending join nothing is drawn. -/
def renderRow (TW TH : Nat) (env : Env) (s : Store) (tileRow : List String)
    (rowNum : Nat) : RowResult :=
  let rr := requestRow TW TH env s tileRow
  match collectOutcomes rr.outcomes with
  | .resolved svgs =>
    ⟨.resolved (), rr.store, rr.netRequests, rowBlock TW TH rowNum svgs⟩
  | .rejected e => ⟨.rejected e, rr.store, rr.netRequests, []⟩
  | .pending => ⟨.pending, rr.store, rr.netRequests, []⟩

/-- Result of the serial row chain. -/
structure MosaicStep where
  outcome : POutcome Unit
  store : Store
  netRequests : Nat
  events : List CanvasEvent

/-- The promise chain of `renderMosaic` (lines 140-146), unrolled: each
row's `renderRow` runs only after the previous row's promise resolved; a
rejected or pending row stops the chain (later `.then` callbacks never
run). -/
def renderMosaicGo (TW TH : Nat) (env : Env) :
    List (List String) → Nat → Store → MosaicStep
  | [], _, s => ⟨.resolved (), s, 0, []⟩
  | row :: rest, rowNum, s =>
    let r := renderRow TW TH env s row rowNum
    match r.outcome with
    | .resolved _ =>
      let m := renderMosaicGo TW TH env rest (rowNum + 1) r.store
      ⟨m.outcome, m.store, r.netRequests + m.netRequests,
        r.events ++ m.events⟩
    | o => ⟨o, r.store, r.netRequests, r.events⟩

/-- `renderMosaic` (lines 140-146): `mosaic.reduce((p,row,rowNum) =>
p.then(() => renderRow(row,rowNum,ctx)), Promise.resolve())`. -/
def renderMosaic (TW TH : Nat) (env : Env) (s : Store)
    (mosaic : List (List String)) : MosaicStep :=
  renderMosaicGo TW TH env mosaic 0 s

/-- The settlement outcomes of the row renders that actually start: each
entry is one `renderRow`'s outcome, and the chain stops after the first
non-resolved one. -/
def rowOutcomes (TW TH : Nat) (env : Env) :
    List (List String) → Nat → Store → List (POutcome Unit)
  | [], _, _ => []
  | row :: rest, rowNum, s =>
    let r := renderRow TW TH env s row rowNum
    match r.outcome with
    | .resolved _ => r.outcome :: rowOutcomes TW TH env rest (rowNum + 1) r.store
    | o => [o]

/-- Result of one `generateMosaic` call: the computed tile grid, the
settlement state of the returned promise, the canvas event trace, the
final localStorage state and the network request count. -/
structure GenResult where
  grid : List (List String)
  outcome : POutcome Unit
  events : List CanvasEvent
  store : Store
  netRequests : Nat

/-- `generateMosaic` (lines 91-117): clear the SVG cache, clip, draw the
clipped source onto the canvas, compute the tile grid, render it row by
row, and resolve with the data URL once the last row resolved (the final
`.then` maps a resolved chain to a resolved call and passes rejection or
pendingness through). -/
def generateMosaic (TW TH : Nat) (env : Env) (s : Store) (img : ImageData)
    (tileWidth tileHeight : Nat) : GenResult :=
  let s1 := clearCachedSvgs s
  let grid := mosaicArray TW TH img tileWidth tileHeight
  let m := renderMosaic TW TH env s1 grid
  ⟨grid, m.outcome, m.events, m.store, m.netRequests⟩

/-!  Concrete fixtures used by witnesses and counterexamples. -/

/-- Environment whose glyph service always answers with the empty string,
with a reliable cache and decoder. -/
def envFetchEmpty : Env := ⟨fun _ => some "", fun _ => true, fun _ _ _ => false⟩

/-- Environment whose glyph service always answers `"<svg/>"`, with a
reliable cache and decoder. -/
def envFetchSvg : Env := ⟨fun _ => some "<svg/>", fun _ => true, fun _ _ _ => false⟩

/-- Environment whose glyph service answers `"x"` but whose image decoding
always fails (`onload` never fires). -/
def envDecodeFail : Env := ⟨fun _ => some "x", fun _ => false, fun _ _ _ => false⟩

/-- Environment whose glyph service is down: every fetch rejects. -/
def envNetFail : Env := ⟨fun _ => none, fun _ => true, fun _ _ _ => false⟩

/-- Environment with a working service and decoder whose cache rejects
every `setItem` (capacity exceeded). -/
def envStoreFail : Env := ⟨fun _ => some "<svg/>", fun _ => true, fun _ _ _ => true⟩

/-- A 1×1 all-black opaque image. -/
def imgOnePixel : ImageData := ⟨1, 1, fun _ _ => ⟨0, 0, 0, 255⟩⟩

/-- A 2×2 image with distinct opaque pixel values per column. -/
def imgTwoByTwo : ImageData :=
  ⟨2, 2, fun i _ => if i = 0 then ⟨255, 0, 0, 255⟩ else ⟨0, 255, 0, 255⟩⟩

example : toHex 0 = "00" := by decide
example : toHex 255 = "ff" := by decide
example : toHex 16 = "10" := by decide
example : tileColor 2 3 (fun _ _ => ⟨12, 34, 56, 255⟩) 0 0 = "0c2238" := by decide
example : specTileColor 2 3 (fun _ _ => ⟨12, 34, 56, 255⟩) 0 0 = "0c2238" := by decide
example : clipImage 10 10 ⟨45, 27, fun _ _ => ⟨0,0,0,0⟩⟩ = ⟨40, 20, 2, 3⟩ := by decide

/-!  Helper lemmas. -/

lemma totalColor_mod0 (acc : Nat × Nat × Nat) (v i : Nat) (h : i % 4 = 0) :
    totalColor acc v i = (acc.1 + v, acc.2.1, acc.2.2) := by
  simp [totalColor, h]

lemma totalColor_mod1 (acc : Nat × Nat × Nat) (v i : Nat) (h : i % 4 = 1) :
    totalColor acc v i = (acc.1, acc.2.1 + v, acc.2.2) := by
  simp [totalColor, h]

lemma totalColor_mod2 (acc : Nat × Nat × Nat) (v i : Nat) (h : i % 4 = 2) :
    totalColor acc v i = (acc.1, acc.2.1, acc.2.2 + v) := by
  simp [totalColor, h]

lemma totalColor_mod3 (acc : Nat × Nat × Nat) (v i : Nat) (h : i % 4 = 3) :
    totalColor acc v i = acc := by
  simp [totalColor, h]

/-- The `totalColor` reduce over the flat RGBA array of a pixel list,
started at any index that is a multiple of 4, adds exactly the
per-channel sums of R, G and B; the alpha channel is skipped. -/
lemma foldl_totalColor (ps : List RGBA) : ∀ (k : Nat) (acc : Nat × Nat × Nat),
    ((flattenRGBA ps).enumFrom (4 * k)).foldl
        (fun a p => totalColor a p.2 p.1) acc
      = (acc.1 + (ps.map RGBA.r).sum, acc.2.1 + (ps.map RGBA.g).sum,
         acc.2.2 + (ps.map RGBA.b).sum) := by
  induction ps with
  | nil => intro k acc; simp [flattenRGBA]
  | cons p ps ih =>
    intro k acc
    have e : flattenRGBA (p :: ps)
        = p.r :: p.g :: p.b :: p.a :: flattenRGBA ps := by
      simp [flattenRGBA]
    rw [e]
    simp only [List.enumFrom, List.foldl_cons]
    rw [totalColor_mod3 _ _ _ (by omega),
        totalColor_mod2 _ _ _ (by omega),
        totalColor_mod1 _ _ _ (by omega),
        totalColor_mod0 _ _ _ (by omega)]
    have e4 : 4 * k + 1 + 1 + 1 + 1 = 4 * (k + 1) := by omega
    rw [e4, ih (k + 1)]
    simp only [List.map_cons, List.sum_cons, Prod.mk.injEq]
    refine ⟨by omega, by omega, by omega⟩

lemma pixList_map_sum (f : RGBA → Nat) (px : Nat → Nat → RGBA)
    (sx sy w h : Nat) :
    ((pixList px sx sy w h).map f).sum = sumChannel f px sx sy w h := by
  simp only [pixList, sumChannel, List.map_flatten, List.sum_flatten,
    List.map_map]
  simp [Function.comp_def]

/-- The reduce in `tileColor` computes exactly the three channel sums of
the block. -/
lemma tile_totals (TW TH : Nat) (px : Nat → Nat → RGBA) (x y : Nat) :
    (getImageData px (TW * x) (TH * y) TW TH).enum.foldl
        (fun acc p => totalColor acc p.2 p.1) (0, 0, 0)
      = (sumChannel RGBA.r px (TW * x) (TH * y) TW TH,
         sumChannel RGBA.g px (TW * x) (TH * y) TW TH,
         sumChannel RGBA.b px (TW * x) (TH * y) TW TH) := by
  have h := foldl_totalColor (pixList px (TW * x) (TH * y) TW TH) 0 (0, 0, 0)
  simp only [Nat.mul_zero] at h
  rw [getImageData, List.enum, h]
  simp [pixList_map_sum]

set_option maxRecDepth 4000 in
/-- `toHex` agrees with the spec's 2-digit zero-padded lowercase hex
serialization on every 8-bit value. -/
lemma toHex_eq_hex2_fin : ∀ n : Fin 256, toHex n.val = hex2 n.val := by decide

lemma toHex_eq_hex2 (n : Nat) (h : n ≤ 255) : toHex n = hex2 n :=
  toHex_eq_hex2_fin ⟨n, by omega⟩

lemma sumChannel_le (f : RGBA → Nat) (px : Nat → Nat → RGBA)
    (sx sy w h : Nat) (hb : ∀ i j, f (px i j) ≤ 255) :
    sumChannel f px sx sy w h ≤ 255 * (w * h) := by
  have inner : ∀ j, ((List.range w).map fun i => f (px (sx + i) (sy + j))).sum
      ≤ w * 255 := by
    intro j
    calc ((List.range w).map fun i => f (px (sx + i) (sy + j))).sum
        ≤ ((List.range w).map fun i => f (px (sx + i) (sy + j))).length * 255 := by
          apply List.sum_le_card_nsmul
          intro x hx
          simp only [List.mem_map] at hx
          obtain ⟨i, _, rfl⟩ := hx
          exact hb _ _
      _ = w * 255 := by simp
  calc sumChannel f px sx sy w h
      ≤ ((List.range h).map fun j =>
          ((List.range w).map fun i => f (px (sx + i) (sy + j))).sum).length
          * (w * 255) := by
        apply List.sum_le_card_nsmul
        intro x hx
        simp only [List.mem_map] at hx
        obtain ⟨j, _, rfl⟩ := hx
        exact inner j
    _ = 255 * (w * h) := by simp; ring

lemma string_join3 (a b c : String) : String.join [a, b, c] = a ++ b ++ c := rfl

lemma avg_le_255 (f : RGBA → Nat) (px : Nat → Nat → RGBA) (sx sy w h : Nat)
    (hw : 0 < w) (hh : 0 < h) (hb : ∀ i j, f (px i j) ≤ 255) :
    sumChannel f px sx sy w h / (w * h) ≤ 255 := by
  have h1 := sumChannel_le f px sx sy w h hb
  calc sumChannel f px sx sy w h / (w * h)
      ≤ 255 * (w * h) / (w * h) := Nat.div_le_div_right h1
    _ = 255 := Nat.mul_div_cancel _ (Nat.mul_pos hw hh)

/-- Refinement: `tileColor` (the code's reduce/average/toHex pipeline)
equals the spec's sum/floor-divide/hex-concatenate formula on 8-bit
input. -/
lemma tileColor_spec (TW TH : Nat) (px : Nat → Nat → RGBA) (x y : Nat)
    (hW : 0 < TW) (hH : 0 < TH)
    (hb : ∀ i j, (px i j).r ≤ 255 ∧ (px i j).g ≤ 255 ∧ (px i j).b ≤ 255) :
    tileColor TW TH px x y = specTileColor TW TH px x y := by
  have ht := tile_totals TW TH px x y
  simp only [tileColor, specTileColor, average, pixelsPerTile, ht,
    List.map_cons, List.map_nil]
  rw [string_join3,
    toHex_eq_hex2 _ (avg_le_255 RGBA.r px _ _ TW TH hW hH fun i j => (hb i j).1),
    toHex_eq_hex2 _ (avg_le_255 RGBA.g px _ _ TW TH hW hH fun i j => (hb i j).2.1),
    toHex_eq_hex2 _ (avg_le_255 RGBA.b px _ _ TW TH hW hH fun i j => (hb i j).2.2)]

lemma sumChannel_const (c : Nat) (f : RGBA → Nat) (px : Nat → Nat → RGBA)
    (sx sy w h : Nat) (hc : ∀ i j, f (px i j) = c) :
    sumChannel f px sx sy w h = c * (w * h) := by
  unfold sumChannel
  have inner : ∀ j, ((List.range w).map fun i => f (px (sx + i) (sy + j))).sum
      = w * c := by
    intro j
    have : ((List.range w).map fun i => f (px (sx + i) (sy + j)))
        = List.replicate w c := by
      rw [List.eq_replicate_iff]
      constructor
      · simp
      · intro b hbm
        simp only [List.mem_map] at hbm
        obtain ⟨i, _, rfl⟩ := hbm
        exact hc _ _
    rw [this, List.sum_replicate, smul_eq_mul]
  have : ((List.range h).map fun j =>
      ((List.range w).map fun i => f (px (sx + i) (sy + j))).sum)
      = List.replicate h (w * c) := by
    rw [List.eq_replicate_iff]
    constructor
    · simp
    · intro b hbm
      simp only [List.mem_map] at hbm
      obtain ⟨j, _, rfl⟩ := hbm
      exact inner j
  rw [this, List.sum_replicate, smul_eq_mul]
  ring

/-- A uniform RGB (12,34,56) tile averages to `"0c2238"` for every tile
size. -/
lemma tileColor_uniform (TW TH x y : Nat) (hW : 0 < TW) (hH : 0 < TH) :
    tileColor TW TH (fun _ _ => ⟨12, 34, 56, 255⟩) x y = "0c2238" := by
  rw [tileColor_spec TW TH _ x y hW hH
    (fun i j => ⟨by norm_num, by norm_num, by norm_num⟩)]
  unfold specTileColor
  rw [sumChannel_const 12 RGBA.r _ _ _ _ _ (fun i j => rfl),
      sumChannel_const 34 RGBA.g _ _ _ _ _ (fun i j => rfl),
      sumChannel_const 56 RGBA.b _ _ _ _ _ (fun i j => rfl),
      Nat.mul_div_cancel _ (Nat.mul_pos hW hH),
      Nat.mul_div_cancel _ (Nat.mul_pos hW hH),
      Nat.mul_div_cancel _ (Nat.mul_pos hW hH)]
  decide

/-!  Claim theorems. -/

/-- C1: for every tile cell, the computed color value equals the
per-channel R, G, B sums over the `W×H` block (alpha excluded), each
floor-divided by the pixel count `W·H`, each quotient serialized as a
2-digit zero-padded lowercase hex string (0→"00", 255→"ff", 16→"10"),
concatenated `R‖G‖B`; and a tile uniformly filled with RGB (12,34,56)
yields `"0c2238"` for every tile size. -/
theorem C1_tile_average_hex :
    (∀ (TW TH : Nat) (px : Nat → Nat → RGBA) (x y : Nat),
      0 < TW → 0 < TH →
      (∀ i j, (px i j).r ≤ 255 ∧ (px i j).g ≤ 255 ∧ (px i j).b ≤ 255) →
      tileColor TW TH px x y = specTileColor TW TH px x y)
    ∧ toHex 0 = "00" ∧ toHex 255 = "ff" ∧ toHex 16 = "10"
    ∧ (∀ (TW TH x y : Nat), 0 < TW → 0 < TH →
      tileColor TW TH (fun _ _ => ⟨12, 34, 56, 255⟩) x y = "0c2238") :=
  ⟨tileColor_spec, by decide, by decide, by decide, tileColor_uniform⟩

/-- Witness for C1 at concrete inputs. -/
theorem C1_witness :
    tileColor 2 3 (fun i j => ⟨(i + j) % 256, 7, 200, 255⟩) 1 2
      = specTileColor 2 3 (fun i j => ⟨(i + j) % 256, 7, 200, 255⟩) 1 2
    ∧ tileColor 5 4 (fun _ _ => ⟨12, 34, 56, 255⟩) 0 3 = "0c2238" :=
  ⟨C1_tile_average_hex.1 2 3 _ 1 2 (by decide) (by decide)
      (fun i j => ⟨by simp only [RGBA.r]; omega, by simp only [RGBA.g]; omega,
        by simp only [RGBA.b]; omega⟩),
   C1_tile_average_hex.2.2.2.2 5 4 0 3 (by decide) (by decide)⟩

/-- C5: the clipper returns exactly the spec's record; width and height
are multiples of the tile size; exact-multiple sources clip to a no-op. -/
theorem C5_clipImage_spec :
    ∀ (TW TH : Nat) (img : ImageData),
      clipImage TW TH img
        = ⟨img.width - img.width % TW, img.height - img.height % TH,
           img.width % TW / 2, img.height % TH / 2⟩
      ∧ TW ∣ (clipImage TW TH img).width
      ∧ TH ∣ (clipImage TW TH img).height
      ∧ (TW ∣ img.width → TH ∣ img.height →
          clipImage TW TH img = ⟨img.width, img.height, 0, 0⟩) := by
  intro TW TH img
  refine ⟨rfl, ?_, ?_, ?_⟩
  · have h := Nat.div_add_mod img.width TW
    exact ⟨img.width / TW, by simp [clipImage]; omega⟩
  · have h := Nat.div_add_mod img.height TH
    exact ⟨img.height / TH, by simp [clipImage]; omega⟩
  · intro hw hh
    obtain ⟨c, hc⟩ := hw
    obtain ⟨d, hd⟩ := hh
    simp [clipImage, hc, hd, Nat.mul_mod_right]

/-- Witness for C5 at a concrete image and tile size. -/
theorem C5_witness :
    clipImage 2 3 ⟨4, 6, fun _ _ => ⟨0, 0, 0, 0⟩⟩ = ⟨4, 6, 0, 0⟩ :=
  (C5_clipImage_spec 2 3 ⟨4, 6, fun _ _ => ⟨0, 0, 0, 0⟩⟩).2.2.2
    ⟨2, by decide⟩ ⟨2, by decide⟩

/-- C7: the tile-color grid produced by `generate` is a function of the
source pixels and tile sizes only: any two calls with equal images agree,
whatever the environment or cache state (so two successive calls with the
same image and tile size produce the same grid). -/
theorem C7_grid_deterministic :
    ∀ (TW TH : Nat) (env env' : Env) (s s' : Store) (img img' : ImageData)
      (tw th : Nat),
      img.width = img'.width → img.height = img'.height →
      (∀ i j, img.pixel i j = img'.pixel i j) →
      (generateMosaic TW TH env s img tw th).grid
        = (generateMosaic TW TH env' s' img' tw th).grid := by
  intro TW TH env env' s s' img img' tw th hw hh hp
  have : img = img' := by
    cases img
    cases img'
    simp only [ImageData.mk.injEq]
    exact ⟨hw, hh, funext fun i => funext fun j => hp i j⟩
  subst this
  rfl

/-- Witness for C7: the same image under two different environments and
cache states. -/
theorem C7_witness :
    (generateMosaic 1 1 envFetchSvg [] imgTwoByTwo 1 1).grid
      = (generateMosaic 1 1 envNetFail [("mosaic-x-1-1", "y")] imgTwoByTwo 1 1).grid :=
  C7_grid_deterministic 1 1 envFetchSvg envNetFail []
    [("mosaic-x-1-1", "y")] imgTwoByTwo imgTwoByTwo 1 1 rfl rfl
    (fun _ _ => rfl)

lemma rowBlock_eventY (TW TH rowNum : Nat) (svgs : List Glyph) :
    ∀ e ∈ rowBlock TW TH rowNum svgs, eventY e = rowNum * TH := by
  intro e he
  simp only [rowBlock, List.mem_flatten, List.mem_map] at he
  obtain ⟨l, ⟨p, hp, rfl⟩, hel⟩ := he
  simp only [List.mem_cons, List.mem_singleton] at hel
  rcases hel with rfl | rfl | h
  · rfl
  · rfl
  · simp at h

lemma renderRow_events_eventY (TW TH : Nat) (env : Env) (s : Store)
    (tileRow : List String) (rowNum : Nat) :
    ∀ e ∈ (renderRow TW TH env s tileRow rowNum).events,
      eventY e = rowNum * TH := by
  intro e he
  rcases h : collectOutcomes (requestRow TW TH env s tileRow).outcomes with svgs | er | p
  · simp only [renderRow, h] at he
    exact rowBlock_eventY TW TH rowNum svgs e he
  · simp [renderRow, h] at he
  · simp [renderRow, h] at he

lemma renderRow_not_resolved_events (TW TH : Nat) (env : Env) (s : Store)
    (tileRow : List String) (rowNum : Nat)
    (h : isResolved (renderRow TW TH env s tileRow rowNum).outcome = false) :
    (renderRow TW TH env s tileRow rowNum).events = [] := by
  rcases hc : collectOutcomes (requestRow TW TH env s tileRow).outcomes with svgs | er | p
  · simp only [renderRow, hc, isResolved] at h
    exact absurd h (by simp)
  · simp only [renderRow, hc]
  · simp only [renderRow, hc]

lemma renderMosaicGo_blocks (TW TH : Nat) (env : Env) :
    ∀ (rows : List (List String)) (rowNum : Nat) (s : Store),
      ∃ blocks : List (List CanvasEvent),
        (renderMosaicGo TW TH env rows rowNum s).events = blocks.flatten
        ∧ blocks.length ≤ rows.length
        ∧ ∀ i, ∀ e ∈ blocks.getD i [], eventY e = (rowNum + i) * TH := by
  intro rows
  induction rows with
  | nil =>
    intro rowNum s
    exact ⟨[], by simp [renderMosaicGo], by simp, by intro i e he; simp at he⟩
  | cons row rest ih =>
    intro rowNum s
    rcases hro : (renderRow TW TH env s row rowNum).outcome with u | er | p
    · obtain ⟨blocks', h1, h2, h3⟩ :=
        ih (rowNum + 1) (renderRow TW TH env s row rowNum).store
      refine ⟨(renderRow TW TH env s row rowNum).events :: blocks', ?_, ?_, ?_⟩
      · simp only [renderMosaicGo, hro]
        simp [h1]
      · simpa using Nat.succ_le_succ h2
      · intro i e he
        cases i with
        | zero =>
          simp only [List.getD_cons_zero] at he
          simpa using renderRow_events_eventY TW TH env s row rowNum e he
        | succ i =>
          simp only [List.getD_cons_succ] at he
          have harith : rowNum + 1 + i = rowNum + (i + 1) := by omega
          have := h3 i e he
          rw [harith] at this
          exact this
    · have hev := renderRow_not_resolved_events TW TH env s row rowNum
        (by rw [hro]; rfl)
      refine ⟨[], ?_, by simp, by intro i e he; simp at he⟩
      simp only [renderMosaicGo, hro]
      simp [hev]
    · have hev := renderRow_not_resolved_events TW TH env s row rowNum
        (by rw [hro]; rfl)
      refine ⟨[], ?_, by simp, by intro i e he; simp at he⟩
      simp only [renderMosaicGo, hro]
      simp [hev]

lemma rowOutcomes_dropFirst (TW TH : Nat) (env : Env) :
    ∀ (rows : List (List String)) (rowNum : Nat) (s : Store) (i : Nat),
      i + 1 < (rowOutcomes TW TH env rows rowNum s).length →
      (rowOutcomes TW TH env rows rowNum s).getD i .pending = .resolved () := by
  intro rows
  induction rows with
  | nil => intro rowNum s i h; simp [rowOutcomes] at h
  | cons row rest ih =>
    intro rowNum s i h
    rcases hro : (renderRow TW TH env s row rowNum).outcome with u | er | p
    · simp only [rowOutcomes, hro] at h ⊢
      cases i with
      | zero => simp
      | succ i =>
        simp only [List.length_cons] at h
        simp only [List.getD_cons_succ]
        exact ih (rowNum + 1) _ i (by omega)
    · simp only [rowOutcomes, hro] at h
      simp at h
    · simp only [rowOutcomes, hro] at h
      simp at h

theorem C2_rows_serial :
    (∀ (TW TH : Nat) (env : Env) (s : Store) (img : ImageData) (tw th : Nat),
      ∃ blocks : List (List CanvasEvent),
        (generateMosaic TW TH env s img tw th).events = blocks.flatten
        ∧ blocks.length ≤ (mosaicArray TW TH img tw th).length
        ∧ ∀ i, ∀ e ∈ blocks.getD i [], eventY e = i * TH)
    ∧ (∀ (TW TH : Nat) (env : Env) (rows : List (List String)) (rowNum : Nat)
        (s : Store) (i : Nat),
        i + 1 < (rowOutcomes TW TH env rows rowNum s).length →
        (rowOutcomes TW TH env rows rowNum s).getD i .pending = .resolved ()) := by
  constructor
  · intro TW TH env s img tw th
    obtain ⟨blocks, h1, h2, h3⟩ := renderMosaicGo_blocks TW TH env
      (mosaicArray TW TH img tw th) 0 (clearCachedSvgs s)
    refine ⟨blocks, h1, h2, ?_⟩
    intro i e he
    simpa using h3 i e he
  · exact fun TW TH env rows rowNum s i h => rowOutcomes_dropFirst TW TH env rows rowNum s i h

theorem C2_witness :
    (∃ blocks : List (List CanvasEvent),
      (generateMosaic 1 1 envFetchSvg [] imgTwoByTwo 1 1).events = blocks.flatten
      ∧ blocks.length ≤ (mosaicArray 1 1 imgTwoByTwo 1 1).length
      ∧ ∀ i, ∀ e ∈ blocks.getD i [], eventY e = i * 1)
    ∧ (rowOutcomes 1 1 envFetchSvg [["ff0000"], ["00ff00"]] 0 []).getD 0 .pending
        = .resolved () :=
  ⟨C2_rows_serial.1 1 1 envFetchSvg [] imgTwoByTwo 1 1,
   C2_rows_serial.2 1 1 envFetchSvg [["ff0000"], ["00ff00"]] 0 [] 0 (by decide)⟩

lemma collectOutcomes_rejected_of_getD :
    ∀ (l : List (POutcome Glyph)) (k : Nat), k < l.length →
      isRejected (l.getD k .pending) = true →
      isRejected (collectOutcomes l) = true := by
  intro l
  induction l with
  | nil => intro k h; simp at h
  | cons o rest ih =>
    intro k hk hr
    cases k with
    | zero =>
      simp only [List.getD_cons_zero] at hr
      rcases o with g | er | p
      · simp [isRejected] at hr
      · simp [collectOutcomes, isRejected]
      · simp [isRejected] at hr
    | succ k =>
      simp only [List.getD_cons_succ] at hr
      simp only [List.length_cons] at hk
      have hrest := ih k (by omega) hr
      rcases o with g | er | p
      · simp only [collectOutcomes]
        rcases hc : collectOutcomes rest with gs | e2 | p2 <;>
          simp [hc, isRejected] at hrest ⊢
      · simp [collectOutcomes, isRejected]
      · simp only [collectOutcomes]
        rcases hc : collectOutcomes rest with gs | e2 | p2 <;>
          simp [hc, isRejected] at hrest ⊢

lemma renderRow_of_collect_rejected (TW TH : Nat) (env : Env) (s : Store)
    (tileRow : List String) (rowNum : Nat)
    (h : isRejected (collectOutcomes (requestRow TW TH env s tileRow).outcomes) = true) :
    (renderRow TW TH env s tileRow rowNum).events = []
    ∧ isRejected (renderRow TW TH env s tileRow rowNum).outcome = true := by
  rcases hc : collectOutcomes (requestRow TW TH env s tileRow).outcomes with gs | er | p
  · rw [hc] at h; simp [isRejected] at h
  · exact ⟨by simp only [renderRow, hc], by simp only [renderRow, hc]; rfl⟩
  · rw [hc] at h; simp [isRejected] at h

lemma rowOutcomes_rejected_go (TW TH : Nat) (env : Env) :
    ∀ (rows : List (List String)) (rowNum : Nat) (s : Store) (e : Err),
      POutcome.rejected e ∈ rowOutcomes TW TH env rows rowNum s →
      (renderMosaicGo TW TH env rows rowNum s).outcome = .rejected e := by
  intro rows
  induction rows with
  | nil => intro rowNum s e h; simp [rowOutcomes] at h
  | cons row rest ih =>
    intro rowNum s e h
    rcases hro : (renderRow TW TH env s row rowNum).outcome with u | er | p
    · simp only [rowOutcomes, hro, List.mem_cons] at h
      rcases h with h | h
      · exact absurd h.symm (by simp)
      · simp only [renderMosaicGo, hro]
        exact ih (rowNum + 1) _ e h
    · simp only [rowOutcomes, hro, List.mem_singleton] at h
      simp only [renderMosaicGo, hro]
    · simp only [rowOutcomes, hro, List.mem_singleton] at h
      exact absurd h.symm (by simp)

/-- C3: no canvas mutation happens unless every glyph resolution of the
row succeeded; if any resolution in the row rejects, no tile of the row
is drawn and the row's promise rejects; a rejected row render makes the
whole chain — and the `generate` call — reject, with no retry. -/
theorem C3_row_fail_atomic :
    (∀ (TW TH : Nat) (env : Env) (s : Store) (tileRow : List String)
        (rowNum k : Nat),
      k < tileRow.length →
      isRejected ((requestRow TW TH env s tileRow).outcomes.getD k .pending) = true →
      (renderRow TW TH env s tileRow rowNum).events = []
      ∧ isRejected (renderRow TW TH env s tileRow rowNum).outcome = true)
    ∧ (∀ (TW TH : Nat) (env : Env) (s : Store) (tileRow : List String)
        (rowNum : Nat),
      (renderRow TW TH env s tileRow rowNum).events ≠ [] →
      isResolved (collectOutcomes (requestRow TW TH env s tileRow).outcomes) = true)
    ∧ (∀ (TW TH : Nat) (env : Env) (rows : List (List String)) (rowNum : Nat)
        (s : Store) (e : Err),
      POutcome.rejected e ∈ rowOutcomes TW TH env rows rowNum s →
      (renderMosaicGo TW TH env rows rowNum s).outcome = .rejected e)
    ∧ (∀ (TW TH : Nat) (env : Env) (s : Store) (img : ImageData) (tw th : Nat)
        (e : Err),
      (renderMosaic TW TH env (clearCachedSvgs s)
          (mosaicArray TW TH img tw th)).outcome = .rejected e →
      (generateMosaic TW TH env s img tw th).outcome = .rejected e) := by
  refine ⟨?_, ?_, rowOutcomes_rejected_go, ?_⟩
  · intro TW TH env s tileRow rowNum k hk hr
    have hlen : (requestRow TW TH env s tileRow).outcomes.length = tileRow.length := by
      clear hk hr
      induction tileRow generalizing s with
      | nil => simp [requestRow]
      | cons c cs ih => simp [requestRow, ih]
    exact renderRow_of_collect_rejected TW TH env s tileRow rowNum
      (collectOutcomes_rejected_of_getD _ k (by omega) hr)
  · intro TW TH env s tileRow rowNum hne
    rcases hc : collectOutcomes (requestRow TW TH env s tileRow).outcomes with gs | er | p
    · rfl
    · exact absurd (by simp only [renderRow, hc]) hne
    · exact absurd (by simp only [renderRow, hc]) hne
  · intro TW TH env s img tw th e h
    exact h

/-- Witness for C3 under a failing glyph service: the single request of
the row rejects, no event is drawn, and the whole generate call rejects. -/
theorem C3_witness :
    ((renderRow 1 1 envNetFail [] ["aa"] 0).events = []
      ∧ isRejected (renderRow 1 1 envNetFail [] ["aa"] 0).outcome = true)
    ∧ isResolved (collectOutcomes (requestRow 1 1 envFetchSvg [] ["aa"]).outcomes) = true
    ∧ (renderMosaicGo 1 1 envNetFail [["aa"]] 0 []).outcome = .rejected .networkErr
    ∧ (generateMosaic 1 1 envNetFail [] imgOnePixel 1 1).outcome = .rejected .networkErr :=
  ⟨C3_row_fail_atomic.1 1 1 envNetFail [] ["aa"] 0 0 (by decide) (by decide),
   C3_row_fail_atomic.2.1 1 1 envFetchSvg [] ["aa"] 0 (by decide),
   C3_row_fail_atomic.2.2.1 1 1 envNetFail [["aa"]] 0 [] .networkErr (by decide),
   C3_row_fail_atomic.2.2.2 1 1 envNetFail [] imgOnePixel 1 1 .networkErr (by decide)⟩

lemma isRejected_loadSVGtoIMG (env : Env) (svg : String) :
    isRejected (loadSVGtoIMG env svg) = false := by
  unfold loadSVGtoIMG
  by_cases h : env.decodeOk svg <;> simp [h, isRejected]

/-- C4: on the cache-miss path, when storing the fetched blob fails the
resolver clears the whole SVG cache, still resolves the glyph from the
freshly fetched data, and never turns the store failure into a rejection;
a row containing such a color still resolves and draws. -/
theorem C4_store_failure_recovered :
    ∀ (TW TH : Nat) (env : Env) (s : Store) (color svg : String) (rowNum : Nat),
      truthy (localStorageGetItem s (storageKey TW TH color)) = false →
      env.fetchResult color = some svg →
      env.setFails (storageKey TW TH color) svg s = true →
      (requestSVG TW TH env s color).store = clearCachedSvgs s
      ∧ (requestSVG TW TH env s color).outcome = loadSVGtoIMG env svg
      ∧ isRejected (requestSVG TW TH env s color).outcome = false
      ∧ (env.decodeOk svg = true →
          (requestSVG TW TH env s color).outcome = .resolved ⟨svg⟩
          ∧ (renderRow TW TH env s [color] rowNum).outcome = .resolved ()
          ∧ (renderRow TW TH env s [color] rowNum).events
              = [.clearRect 0 (rowNum * TH) TW TH,
                 .drawImage svg 0 (rowNum * TH)]) := by
  intro TW TH env s color svg rowNum htruthy hfetch hset
  have hreq : requestSVG TW TH env s color
      = ⟨loadSVGtoIMG env svg, clearCachedSvgs s, 1⟩ := by
    simp only [requestSVG, htruthy, hfetch, hset]
    rfl
  refine ⟨by rw [hreq], by rw [hreq], by rw [hreq]; exact isRejected_loadSVGtoIMG env svg, ?_⟩
  intro hdec
  have hout : (requestSVG TW TH env s color).outcome = .resolved ⟨svg⟩ := by
    rw [hreq]
    simp [loadSVGtoIMG, hdec]
  refine ⟨hout, ?_, ?_⟩
  · simp only [renderRow, requestRow, hout, collectOutcomes]
  · simp only [renderRow, requestRow, hout, collectOutcomes]
    simp [rowBlock, List.enum]

/-- Witness for C4 with a cache that rejects every store. -/
theorem C4_witness :
    (requestSVG 1 1 envStoreFail [("mosaic-zz-1-1", "v")] "aa").store
        = clearCachedSvgs [("mosaic-zz-1-1", "v")]
    ∧ (requestSVG 1 1 envStoreFail [("mosaic-zz-1-1", "v")] "aa").outcome
        = .resolved ⟨"<svg/>"⟩
    ∧ (renderRow 1 1 envStoreFail [("mosaic-zz-1-1", "v")] ["aa"] 0).outcome
        = .resolved () :=
  by
  have h := C4_store_failure_recovered 1 1 envStoreFail
    [("mosaic-zz-1-1", "v")] "aa" "<svg/>" 0 (by decide) (by decide) (by decide)
  exact ⟨h.1, (h.2.2.2 (by decide)).1, (h.2.2.2 (by decide)).2.1⟩

lemma localStorageGetItem_setItem (s : Store) (key v : String) :
    localStorageGetItem (localStorageSetItem s key v) key = some v := by
  simp [localStorageGetItem, localStorageSetItem, List.find?]

/-- C6 counterexample: the glyph service answers with the empty string;
the first (cache-miss) resolution stores the blob under the computed key,
yet the second resolution of the same color and tile size still issues a
network request, because the JS truthiness test treats the cached empty
string as absent. -/
theorem C6_counterexample :
    (requestSVG 1 1 envFetchEmpty [] "aa").netRequests = 1
    ∧ localStorageGetItem (requestSVG 1 1 envFetchEmpty [] "aa").store
        "mosaic-aa-1-1" = some ""
    ∧ (requestSVG 1 1 envFetchEmpty
        (requestSVG 1 1 envFetchEmpty [] "aa").store "aa").netRequests = 1 := by
  decide

/-- C6 (amended): after a cache-miss resolution has stored a *nonempty*
glyph blob under the key, a subsequent resolution of the same color and
tile size answers from the cached blob and issues no network request. -/
theorem C6_cached_no_refetch :
    ∀ (TW TH : Nat) (env : Env) (s : Store) (color svg : String),
      truthy (localStorageGetItem s (storageKey TW TH color)) = false →
      env.fetchResult color = some svg →
      env.setFails (storageKey TW TH color) svg s = false →
      svg ≠ "" →
      (requestSVG TW TH env s color).netRequests = 1
      ∧ localStorageGetItem (requestSVG TW TH env s color).store
          (storageKey TW TH color) = some svg
      ∧ (requestSVG TW TH env (requestSVG TW TH env s color).store color).netRequests = 0
      ∧ (requestSVG TW TH env (requestSVG TW TH env s color).store color).outcome
          = loadSVGtoIMG env svg := by
  intro TW TH env s color svg htruthy hfetch hset hne
  have hreq : requestSVG TW TH env s color
      = ⟨loadSVGtoIMG env svg, localStorageSetItem s (storageKey TW TH color) svg, 1⟩ := by
    simp only [requestSVG, htruthy, hfetch, hset]
    rfl
  have hkey := localStorageGetItem_setItem s (storageKey TW TH color) svg
  have hget : localStorageGetItem (requestSVG TW TH env s color).store
      (storageKey TW TH color) = some svg := by
    rw [hreq]
    exact hkey
  have htr : truthy (some svg) = true := by simp [truthy, hne]
  refine ⟨by rw [hreq], hget, ?_, ?_⟩
  · rw [hreq]
    simp only [requestSVG, hkey, htr, if_true]
  · rw [hreq]
    simp only [requestSVG, hkey, htr, if_true]
    rfl

/-- Witness for C6's amended statement at a concrete environment. -/
theorem C6_witness :
    (requestSVG 1 1 envFetchSvg [] "aa").netRequests = 1
    ∧ localStorageGetItem (requestSVG 1 1 envFetchSvg [] "aa").store
        "mosaic-aa-1-1" = some "<svg/>"
    ∧ (requestSVG 1 1 envFetchSvg (requestSVG 1 1 envFetchSvg [] "aa").store "aa").netRequests = 0 :=
  by
  have h := C6_cached_no_refetch 1 1 envFetchSvg [] "aa" "<svg/>"
    (by decide) (by decide) (by decide) (by decide)
  exact ⟨h.1, h.2.1, h.2.2.1⟩

lemma rowOutcomes_pending_go (TW TH : Nat) (env : Env) :
    ∀ (rows : List (List String)) (rowNum : Nat) (s : Store),
      POutcome.pending ∈ rowOutcomes TW TH env rows rowNum s →
      (renderMosaicGo TW TH env rows rowNum s).outcome = .pending := by
  intro rows
  induction rows with
  | nil => intro rowNum s h; simp [rowOutcomes] at h
  | cons row rest ih =>
    intro rowNum s h
    rcases hro : (renderRow TW TH env s row rowNum).outcome with u | er | p
    · simp only [rowOutcomes, hro, List.mem_cons] at h
      rcases h with h | h
      · exact absurd h.symm (by simp)
      · simp only [renderMosaicGo, hro]
        exact ih (rowNum + 1) _ h
    · simp only [rowOutcomes, hro, List.mem_singleton] at h
      exact absurd h.symm (by simp)
    · simp only [renderMosaicGo, hro]

/-- C8 counterexample: a decode failure of a freshly fetched blob does not
reject — the resolver's promise, and the whole `generate` call, stay
pending forever instead (`loadSVGtoIMG` installs no `onerror` handler and
never calls `reject`). -/
theorem C8_counterexample :
    envDecodeFail.decodeOk "x" = false
    ∧ (requestSVG 1 1 envDecodeFail [] "ab").outcome = .pending
    ∧ isRejected (requestSVG 1 1 envDecodeFail [] "ab").outcome = false
    ∧ (generateMosaic 1 1 envDecodeFail [] imgOnePixel 1 1).outcome = .pending
    ∧ isRejected (generateMosaic 1 1 envDecodeFail [] imgOnePixel 1 1).outcome = false := by
  decide

/-- C8 (amended): a failure to decode a glyph blob (cached or fetched)
does not propagate as a rejection; the resolver's promise never settles,
a row containing it never settles and draws nothing, and the whole
`generate` call never settles. -/
theorem C8_decode_failure_pending :
    (∀ (env : Env) (svg : String), env.decodeOk svg = false →
      loadSVGtoIMG env svg = .pending)
    ∧ (∀ (TW TH : Nat) (env : Env) (s : Store) (color svg : String),
      truthy (localStorageGetItem s (storageKey TW TH color)) = false →
      env.fetchResult color = some svg → env.decodeOk svg = false →
      (requestSVG TW TH env s color).outcome = .pending)
    ∧ (∀ (TW TH : Nat) (env : Env) (s : Store) (color svg : String),
      localStorageGetItem s (storageKey TW TH color) = some svg → svg ≠ "" →
      env.decodeOk svg = false →
      (requestSVG TW TH env s color).outcome = .pending)
    ∧ (∀ (TW TH : Nat) (env : Env) (s : Store) (tileRow : List String)
        (rowNum : Nat),
      collectOutcomes (requestRow TW TH env s tileRow).outcomes = .pending →
      (renderRow TW TH env s tileRow rowNum).outcome = .pending
      ∧ (renderRow TW TH env s tileRow rowNum).events = [])
    ∧ (∀ (TW TH : Nat) (env : Env) (rows : List (List String)) (rowNum : Nat)
        (s : Store),
      POutcome.pending ∈ rowOutcomes TW TH env rows rowNum s →
      (renderMosaicGo TW TH env rows rowNum s).outcome = .pending)
    ∧ (∀ (TW TH : Nat) (env : Env) (s : Store) (img : ImageData) (tw th : Nat),
      (renderMosaic TW TH env (clearCachedSvgs s)
          (mosaicArray TW TH img tw th)).outcome = .pending →
      (generateMosaic TW TH env s img tw th).outcome = .pending) := by
  refine ⟨?_, ?_, ?_, ?_, rowOutcomes_pending_go, ?_⟩
  · intro env svg h
    simp [loadSVGtoIMG, h]
  · intro TW TH env s color svg htruthy hfetch hdec
    have hload : loadSVGtoIMG env svg = .pending := by simp [loadSVGtoIMG, hdec]
    simp only [requestSVG, htruthy, hfetch]
    rcases hsf : env.setFails (storageKey TW TH color) svg s with _ | _ <;>
      simp [hsf, hload]
  · intro TW TH env s color svg hget hne hdec
    have htr : truthy (localStorageGetItem s (storageKey TW TH color)) = true := by
      rw [hget]; simp [truthy, hne]
    simp only [requestSVG, htr, if_true, hget]
    simp [loadSVGtoIMG, hdec, truthy, hne]
  · intro TW TH env s tileRow rowNum hc
    exact ⟨by simp only [renderRow, hc], by simp only [renderRow, hc]⟩
  · intro TW TH env s img tw th h
    exact h

/-- Witness for C8's amended statement under a failing decoder. -/
theorem C8_witness :
    loadSVGtoIMG envDecodeFail "x" = .pending
    ∧ (requestSVG 2 2 envDecodeFail [] "cc").outcome = .pending
    ∧ (requestSVG 2 2 envDecodeFail [("mosaic-cc-2-2", "x")] "cc").outcome = .pending
    ∧ (renderRow 2 2 envDecodeFail [] ["cc"] 0).outcome = .pending
    ∧ (renderMosaicGo 2 2 envDecodeFail [["cc"]] 0 []).outcome = .pending
    ∧ (generateMosaic 1 1 envDecodeFail [] imgOnePixel 1 1).outcome = .pending :=
  ⟨C8_decode_failure_pending.1 envDecodeFail "x" (by decide),
   C8_decode_failure_pending.2.1 2 2 envDecodeFail [] "cc" "x" (by decide) (by decide) (by decide),
   C8_decode_failure_pending.2.2.1 2 2 envDecodeFail [("mosaic-cc-2-2", "x")] "cc" "x"
     (by decide) (by decide) (by decide),
   (C8_decode_failure_pending.2.2.2.1 2 2 envDecodeFail [] ["cc"] 0 (by decide)).1,
   C8_decode_failure_pending.2.2.2.2.1 2 2 envDecodeFail [["cc"]] 0 [] (by decide),
   C8_decode_failure_pending.2.2.2.2.2 1 1 envDecodeFail [] imgOnePixel 1 1 (by decide)⟩

lemma renderRow_nil (TW TH : Nat) (env : Env) (s : Store) (rowNum : Nat) :
    renderRow TW TH env s [] rowNum = ⟨.resolved (), s, 0, []⟩ := by
  simp only [renderRow, requestRow, collectOutcomes]
  rfl

lemma renderMosaicGo_all_nil (TW TH : Nat) (env : Env) :
    ∀ (rows : List (List String)) (rowNum : Nat) (s : Store),
      (∀ row ∈ rows, row = []) →
      renderMosaicGo TW TH env rows rowNum s = ⟨.resolved (), s, 0, []⟩ := by
  intro rows
  induction rows with
  | nil => intro rowNum s _; rfl
  | cons row rest ih =>
    intro rowNum s hall
    have hrow : row = [] := hall row (by simp)
    subst hrow
    have hrest := ih (rowNum + 1) s (fun r hr => hall r (by simp [hr]))
    simp only [renderMosaicGo, renderRow_nil, hrest]
    rfl

/-- C9: a source smaller than one tile in a dimension does not reject:
the clipped dimension is 0, the grid is empty along that axis, nothing is
drawn, no network request is made, and the call resolves silently. -/
theorem C9_small_image_empty :
    ∀ (TW TH : Nat) (env : Env) (s : Store) (img : ImageData),
      0 < TW → 0 < TH → (img.width < TW ∨ img.height < TH) →
      ((clipImage TW TH img).width = 0 ∨ (clipImage TW TH img).height = 0)
      ∧ (generateMosaic TW TH env s img TW TH).outcome = .resolved ()
      ∧ (generateMosaic TW TH env s img TW TH).events = []
      ∧ (generateMosaic TW TH env s img TW TH).netRequests = 0
      ∧ (img.width < TW → ∀ row ∈ (generateMosaic TW TH env s img TW TH).grid,
          row = [])
      ∧ (img.height < TH → (generateMosaic TW TH env s img TW TH).grid = []) := by
  intro TW TH env s img hTW hTH hsmall
  have hgridW : img.width < TW →
      ∀ row ∈ (generateMosaic TW TH env s img TW TH).grid, row = [] := by
    intro hw row hrow
    have hmod : img.width % TW = img.width := Nat.mod_eq_of_lt hw
    have hzero : (clipImage TW TH img).width = 0 := by
      simp [clipImage, hmod]
    have : (generateMosaic TW TH env s img TW TH).grid
        = mosaicArray TW TH img TW TH := rfl
    rw [this] at hrow
    simp only [mosaicArray, hzero, Nat.zero_div, range, List.range_zero,
      List.map_nil, List.mem_map] at hrow
    obtain ⟨y, _, rfl⟩ := hrow
    rfl
  have hgridH : img.height < TH → (generateMosaic TW TH env s img TW TH).grid = [] := by
    intro hh
    have hmod : img.height % TH = img.height := Nat.mod_eq_of_lt hh
    have hzero : (clipImage TW TH img).height = 0 := by
      simp [clipImage, hmod]
    show mosaicArray TW TH img TW TH = []
    simp [mosaicArray, hzero, Nat.zero_div, range]
  have hall : ∀ row ∈ mosaicArray TW TH img TW TH, row = [] := by
    rcases hsmall with hw | hh
    · exact hgridW hw
    · intro row hrow
      have hnil : mosaicArray TW TH img TW TH = [] := hgridH hh
      rw [hnil] at hrow
      simp at hrow
  have hgen : generateMosaic TW TH env s img TW TH
      = ⟨mosaicArray TW TH img TW TH, .resolved (), [], clearCachedSvgs s, 0⟩ := by
    have hgo := renderMosaicGo_all_nil TW TH env (mosaicArray TW TH img TW TH)
      0 (clearCachedSvgs s) hall
    simp only [generateMosaic, renderMosaic, hgo]
  refine ⟨?_, by rw [hgen], by rw [hgen], by rw [hgen], hgridW, hgridH⟩
  rcases hsmall with hw | hh
  · exact Or.inl (by simp [clipImage, Nat.mod_eq_of_lt hw])
  · exact Or.inr (by simp [clipImage, Nat.mod_eq_of_lt hh])

/-- Witness for C9: a 2×7 source with 3×3 tiles. -/
theorem C9_witness :
    (generateMosaic 3 3 envFetchSvg [] ⟨2, 7, fun _ _ => ⟨1, 2, 3, 255⟩⟩ 3 3).outcome
        = .resolved ()
    ∧ (generateMosaic 3 3 envFetchSvg [] ⟨2, 7, fun _ _ => ⟨1, 2, 3, 255⟩⟩ 3 3).events
        = []
    ∧ (generateMosaic 3 3 envFetchSvg [] ⟨2, 7, fun _ _ => ⟨1, 2, 3, 255⟩⟩ 3 3).netRequests
        = 0 :=
  by
  have h := C9_small_image_empty 3 3 envFetchSvg [] ⟨2, 7, fun _ _ => ⟨1, 2, 3, 255⟩⟩
    (by decide) (by decide) (Or.inl (by decide))
  exact ⟨h.2.1, h.2.2.1, h.2.2.2.1⟩

lemma getD_range_map {α : Type} (n : Nat) (f : Nat → α) (y : Nat) (d : α)
    (hy : y < n) : ((List.range n).map f).getD y d = f y := by
  rw [List.getD_eq_getElem?_getD, List.getElem?_map, List.getElem?_range hy]
  rfl

/-- C10: with explicit tile-size arguments, only the grid dimensions
(`xTotal = width/tileWidth`, `yTotal = height/tileHeight`) depend on the
arguments; every cell value is `tileColor` of the module constants over
the canvas pixels, so the per-tile colors are independent of the passed
tile size (pixel-block extraction, averaging divisor, clipping, cache
keys and draw offsets all use the module constants). -/
theorem C10_tile_args_only_grid_dims :
    ∀ (TW TH : Nat) (env : Env) (s : Store) (img : ImageData) (tw th : Nat),
      tw ∣ (clipImage TW TH img).width → th ∣ (clipImage TW TH img).height →
      (generateMosaic TW TH env s img tw th).grid = mosaicArray TW TH img tw th
      ∧ (mosaicArray TW TH img tw th).length = (clipImage TW TH img).height / th
      ∧ (∀ row ∈ mosaicArray TW TH img tw th,
          row.length = (clipImage TW TH img).width / tw)
      ∧ (∀ x y, y < (clipImage TW TH img).height / th →
          x < (clipImage TW TH img).width / tw →
          ((mosaicArray TW TH img tw th).getD y []).getD x ""
            = tileColor TW TH (canvasPixel TW TH img) x y) := by
  intro TW TH env s img tw th hdw hdh
  refine ⟨rfl, by simp [mosaicArray, range], ?_, ?_⟩
  · intro row hrow
    simp only [mosaicArray, range, List.mem_map] at hrow
    obtain ⟨y, _, rfl⟩ := hrow
    simp
  · intro x y hy hx
    have h1 : (mosaicArray TW TH img tw th).getD y []
        = (range ((clipImage TW TH img).width / tw)).map
            (fun x => tileColor TW TH (canvasPixel TW TH img) x y) := by
      simp only [mosaicArray, range]
      exact getD_range_map _ _ y [] hy
    rw [h1]
    exact getD_range_map _ _ x "" hx

/-- Witness for C10: module tile size 1×1, passed arguments 2×1. -/
theorem C10_witness :
    (generateMosaic 1 1 envFetchSvg [] imgTwoByTwo 2 1).grid
        = mosaicArray 1 1 imgTwoByTwo 2 1
    ∧ (mosaicArray 1 1 imgTwoByTwo 2 1).length = 2
    ∧ ((mosaicArray 1 1 imgTwoByTwo 2 1).getD 0 []).getD 0 ""
        = tileColor 1 1 (canvasPixel 1 1 imgTwoByTwo) 0 0 :=
  by
  have h := C10_tile_args_only_grid_dims 1 1 envFetchSvg [] imgTwoByTwo 2 1
    ⟨1, by decide⟩ ⟨2, by decide⟩
  exact ⟨h.1, h.2.1, h.2.2.2 0 0 (by decide) (by decide)⟩
